import Mathlib

/-!
Verification of the tree-mutation core of `kpwrite.py` (libkeepass-unicode).

The script mutates an in-memory lxml element tree (the decrypted KeePass
database): it resolves or creates a destination group, builds an entry with
timestamps and a password field, and writes the re-serialized container to
disk.  We shallowly embed the relevant functions over an immutable XML
element type `Elem`; lxml's in-place mutation becomes explicit tree
rebuilding (`appendChildAt`), xpath lookups become list traversals, and the
process-wide random UUID stream becomes an explicit candidate list
parameter.  The script targets Python 2: `base64.b64encode` returns a
`str`, and `str(element)` on an lxml element yields a representation of the
form `<Element TAG at 0xADDR>` (modelled by `pyReprElem`, parametrised by
an arbitrary address assignment; no result below depends on the addresses).
Unbounded recursion / unbounded loops in the source are modelled with an
explicit fuel or with the finite candidate list; exhaustion models
non-termination (Python `RecursionError`) respectively an infinitely
colliding random stream.  A Python exception is modelled as
`Except.error : Except PyErr _`.
-/

/-- An XML element as manipulated by lxml: a tag, optional text, attributes
in insertion order, and child elements in document order. -/
inductive Elem where
  | mk (tag : String) (text : Option String) (attrs : List (String × String)) (children : List Elem)

/-- Tag name of an element. -/
def Elem.tag : Elem → String
  | .mk t _ _ _ => t

/-- Text content of an element (`none` models lxml's `text = None`). -/
def Elem.text : Elem → Option String
  | .mk _ tx _ _ => tx

/-- Attribute list of an element, in the order the `set` calls ran. -/
def Elem.attrs : Elem → List (String × String)
  | .mk _ _ a _ => a

/-- Child elements, in document order. -/
def Elem.children : Elem → List Elem
  | .mk _ _ _ c => c

/-- The exception kinds the embedded code can raise. -/
inductive PyErr where
  | attributeError
  | typeError

/-! ## Base64 (the text encoding used for identifiers)

`generate_unique_uuid` stores identifiers as `base64.b64encode(uuid.uuid1().bytes)`.
We model the byte string as a `List Nat` of values `< 256` and standard
base64 with padding over it. -/

/-- The standard base64 alphabet, as in `base64.b64encode`. -/
def b64chars : List Char :=
  ['A','B','C','D','E','F','G','H','I','J','K','L','M','N','O','P',
   'Q','R','S','T','U','V','W','X','Y','Z',
   'a','b','c','d','e','f','g','h','i','j','k','l','m','n','o','p',
   'q','r','s','t','u','v','w','x','y','z',
   '0','1','2','3','4','5','6','7','8','9','+','/']

/-- Character for a 6-bit group (out-of-range indices never occur in use). -/
def tbl (i : Nat) : Char := b64chars.getD i 'A'

/-- Index of a character in the base64 alphabet, `none` for foreign chars. -/
def idx (c : Char) : Option Nat := b64chars.findIdx? (fun x => x == c)

/-- Base64-encode a byte list, 3 bytes to 4 chars, with `=` padding, exactly
as `base64.b64encode` does. -/
def b64encodeBytes : List Nat → List Char
  | [] => []
  | [a] => [tbl (a / 4), tbl (a % 4 * 16), '=', '=']
  | [a, b] => [tbl (a / 4), tbl (a % 4 * 16 + b / 16), tbl (b % 16 * 4), '=']
  | a :: b :: c :: rest =>
    tbl (a / 4) :: tbl (a % 4 * 16 + b / 16) :: tbl (b % 16 * 4 + c / 64) :: tbl (c % 64) ::
      b64encodeBytes rest

/-- Base64-decode a char list (the inverse reading of `base64.b64decode` on
canonical encodings); `none` on malformed input. -/
def b64decodeChars : List Char → Option (List Nat)
  | [] => some []
  | c1 :: c2 :: c3 :: c4 :: rest =>
    (idx c1).bind fun i1 =>
    (idx c2).bind fun i2 =>
    if c3 = '=' then
      if c4 = '=' ∧ rest = [] then some [i1 * 4 + i2 / 16] else none
    else
      (idx c3).bind fun i3 =>
      if c4 = '=' then
        if rest = [] then some [i1 * 4 + i2 / 16, i2 % 16 * 16 + i3 / 4] else none
      else
        (idx c4).bind fun i4 =>
        (b64decodeChars rest).map fun bs =>
          (i1 * 4 + i2 / 16) :: (i2 % 16 * 16 + i3 / 4) :: (i3 % 4 * 64 + i4) :: bs
  | _ => none

/-- The stored text form of an identifier: `base64.b64encode` as a string. -/
def b64encodeStr (bs : List Nat) : String := String.mk (b64encodeBytes bs)

/-- Decode a stored text token back to raw bytes. -/
def b64decodeStr (s : String) : Option (List Nat) := b64decodeChars s.data

theorem tbl_mem (i : Nat) : tbl i ∈ b64chars := by
  by_cases h : i < 64
  · have : ∀ j < 64, tbl j ∈ b64chars := by decide
    exact this i h
  · have hlen : b64chars.length ≤ i := by
      have : b64chars.length = 64 := by decide
      omega
    have : tbl i = 'A' := by
      unfold tbl
      exact List.getD_eq_default _ _ hlen
    rw [this]
    decide

theorem tbl_ne_of_not_mem {c : Char} (h : c ∉ b64chars) (i : Nat) : tbl i ≠ c :=
  fun he => h (he ▸ tbl_mem i)

theorem tbl_ne_pad (i : Nat) : tbl i ≠ '=' :=
  tbl_ne_of_not_mem (by decide) i

theorem idx_tbl (i : Nat) (h : i < 64) : idx (tbl i) = some i := by
  have : ∀ j < 64, idx (tbl j) = some j := by decide
  exact this i h

theorem b64_roundtrip : ∀ (l : List Nat), (∀ x ∈ l, x < 256) →
    b64decodeChars (b64encodeBytes l) = some l
  | [], _ => rfl
  | [a], h => by
    have ha : a < 256 := h a (by simp)
    simp only [b64encodeBytes, b64decodeChars]
    rw [idx_tbl _ (by omega), idx_tbl _ (by omega)]
    show some [a / 4 * 4 + a % 4 * 16 / 16] = some [a]
    have he : a / 4 * 4 + a % 4 * 16 / 16 = a := by omega
    rw [he]
  | [a, b], h => by
    have ha : a < 256 := h a (by simp)
    have hb : b < 256 := h b (by simp)
    simp only [b64encodeBytes, b64decodeChars]
    rw [idx_tbl _ (by omega), idx_tbl _ (by omega)]
    simp only [Option.some_bind]
    rw [if_neg (tbl_ne_pad _), idx_tbl _ (by omega)]
    simp only [Option.some_bind]
    show some [_, _] = some [a, b]
    have e1 : a / 4 * 4 + (a % 4 * 16 + b / 16) / 16 = a := by omega
    have e2 : (a % 4 * 16 + b / 16) % 16 * 16 + b % 16 * 4 / 4 = b := by omega
    rw [e1, e2]
  | a :: b :: c :: rest, h => by
    have ha : a < 256 := h a (by simp)
    have hb : b < 256 := h b (by simp)
    have hc : c < 256 := h c (by simp)
    have hrest : ∀ x ∈ rest, x < 256 := fun x hx => h x (by simp [hx])
    have ih := b64_roundtrip rest hrest
    simp only [b64encodeBytes, b64decodeChars]
    rw [idx_tbl _ (by omega), idx_tbl _ (by omega)]
    simp only [Option.some_bind]
    rw [if_neg (tbl_ne_pad _), idx_tbl _ (by omega)]
    simp only [Option.some_bind]
    rw [if_neg (tbl_ne_pad _), idx_tbl _ (by omega)]
    simp only [Option.some_bind]
    rw [ih]
    simp only [Option.map_some']
    have e1 : a / 4 * 4 + (a % 4 * 16 + b / 16) / 16 = a := by omega
    have e2 : (a % 4 * 16 + b / 16) % 16 * 16 + (b % 16 * 4 + c / 64) / 4 = b := by omega
    have e3 : (b % 16 * 4 + c / 64) % 4 * 64 + c % 64 = c := by omega
    rw [e1, e2, e3]

/-! ## xpath and the identifier generator -/

mutual
/-- All elements with tag `t` in the subtree rooted at `e`, in document
order: models `etree.xpath` with a pattern of the form `//TAG`. -/
def xpathAll (t : String) : Elem → List Elem
  | .mk tag tx a cs => (if tag == t then [Elem.mk tag tx a cs] else []) ++ xpathAllList t cs
/-- `xpathAll` mapped over a forest of sibling elements. -/
def xpathAllList (t : String) : List Elem → List Elem
  | [] => []
  | c :: cs => xpathAll t c ++ xpathAllList t cs
end

/-- Python 2 `str(x)` on an lxml element: a representation of the shape
`<Element TAG at 0xADDR>`.  The address is an arbitrary parameter; nothing
proved below depends on it.  The one property that matters is that the
string starts with a `<`, which no base64 token does. -/
def pyReprElem (e : Elem) (addr : Nat) : String :=
  String.mk ('<' :: ("Element " ++ e.tag ++ " at 0x" ++ toString addr ++ ">").data)

/-- The list `uuids = [str(x) for x in etree.xpath('//UUID')]` built by
`generate_unique_uuid`; `addrOf i` is the heap address of the `i`-th
element. -/
def uuid_strs (etree : Elem) (addrOf : Nat → Nat) : List String :=
  (xpathAll "UUID" etree).enum.map (fun p => pyReprElem p.2 (addrOf p.1))

/-- `generate_unique_uuid(etree)`: draws `uuid.uuid1().bytes` values from
the candidate stream `cands`, base64-encodes each, and loops while the
token occurs in `uuids`; returns the token and the unconsumed stream.
`none` models exhausting the stream, i.e. the `while True` loop never
returning. -/
def generate_unique_uuid (etree : Elem) (addrOf : Nat → Nat) :
    List (List Nat) → Option (String × List (List Nat))
  | [] => none
  | c :: rest =>
    if b64encodeStr c ∈ uuid_strs etree addrOf then generate_unique_uuid etree addrOf rest
    else some (b64encodeStr c, rest)

/-- `get_uuid_element(etree)`: wraps the generated token in a `UUID`
element. -/
def get_uuid_element (etree : Elem) (addrOf : Nat → Nat) (cands : List (List Nat)) :
    Option (Elem × List (List Nat)) :=
  (generate_unique_uuid etree addrOf cands).map
    (fun p => (Elem.mk "UUID" (some p.1) [] [], p.2))

theorem b64encodeStr_ne_pyReprElem (c : List Nat) (e : Elem) (a : Nat) :
    b64encodeStr c ≠ pyReprElem e a := by
  intro h
  have hd : b64encodeBytes c = '<' :: ("Element " ++ e.tag ++ " at 0x" ++ toString a ++ ">").data :=
    congrArg String.data h
  match c, hd with
  | [], hd => exact List.noConfusion hd
  | [x], hd =>
    exact tbl_ne_of_not_mem (by decide) (x / 4) (List.head_eq_of_cons_eq hd)
  | [x, y], hd =>
    exact tbl_ne_of_not_mem (by decide) (x / 4) (List.head_eq_of_cons_eq hd)
  | x :: y :: z :: rest, hd =>
    exact tbl_ne_of_not_mem (by decide) (x / 4) (List.head_eq_of_cons_eq hd)

/-! ## Path handling and group resolution -/

/-- Split a char list at every separator, as Python `str.split(sep)` does
for a one-character separator (the empty string splits to `[""]`). -/
def splitOnCharAux : Char → List Char → List Char → List (List Char)
  | _, [], acc => [acc.reverse]
  | sep, c :: cs, acc =>
    if c == sep then acc.reverse :: splitOnCharAux sep cs []
    else splitOnCharAux sep cs (c :: acc)

/-- `group_name.split('/')` from `find_group_by_path`. -/
def pySplitSlash (s : String) : List String :=
  (splitOnCharAux '/' s.data []).map String.mk

/-- Strip trailing `'/'` characters, Python `str.rstrip('/')`. -/
def dropTrailingSlashes (cs : List Char) : List Char :=
  (cs.reverse.dropWhile (fun c => c == '/')).reverse

/-- `os.path.split(p)` for POSIX paths: split at the last slash, then strip
trailing slashes off the head unless it is empty or all slashes. -/
def pathSplit (p : String) : String × String :=
  let cs := p.data
  let tailLen := (cs.reverse.takeWhile (fun c => c != '/')).length
  let i := cs.length - tailLen
  let head := cs.take i
  let tail := cs.drop i
  let head2 := if head.isEmpty || head.all (fun c => c == '/') then head else dropTrailingSlashes head
  (String.mk head2, String.mk tail)

/-- The children of `e` with tag `t`, paired with their index paths; `loc`
is the index path of `e` itself from the document root. -/
def childrenWithTagLoc (e : Elem) (loc : List Nat) (t : String) : List (Elem × List Nat) :=
  (e.children.enum.filter (fun p => p.2.tag == t)).map (fun p => (p.2, loc ++ [p.1]))

/-- Does group `g` have a `Name` child whose text is `s`?  Models the xpath
step `Name[text()="s"]`. -/
def hasNameText (g : Elem) (s : String) : Bool :=
  (g.children.filter (fun c => c.tag == "Name")).any (fun n => n.text == some s)

/-- The xpath prefix `/KeePassFile/Root/Group`: the root groups of the
document, with their index paths. -/
def rootGroupsLoc (doc : Elem) : List (Elem × List Nat) :=
  if doc.tag == "KeePassFile" then
    ((childrenWithTagLoc doc [] "Root").map (fun p => childrenWithTagLoc p.1 p.2 "Group")).flatten
  else []

/-- One xpath step `/Group/Name[text()="s"]/..`: all `Group` children of
the current node set carrying a matching `Name`, in document order. -/
def xpathStepLoc (ps : List (Elem × List Nat)) (s : String) : List (Elem × List Nat) :=
  (ps.map (fun p => (childrenWithTagLoc p.1 p.2 "Group").filter (fun q => hasNameText q.1 s))).flatten

/-- `find_group_by_path(etree, group_name)`: builds the xpath
`/KeePassFile/Root/Group` followed by one `/Group/Name[text()="seg"]/..`
step per `'/'`-separated segment of `group_name` and returns the first
result, or `None`.  The returned index path stands for the reference lxml
hands back into the mutable tree. -/
def find_group_by_path (doc : Elem) (group_name : String) : Option (Elem × List Nat) :=
  ((pySplitSlash group_name).foldl xpathStepLoc (rootGroupsLoc doc)).head?

/-- `find_group_by_name(etree, group_name)`: the global xpath
`//Group/Name[text()="s"]/..`, first match or `None`. -/
def find_group_by_name (etree : Elem) (group_name : String) : Option Elem :=
  ((xpathAll "Group" etree).filter (fun g => hasNameText g group_name)).head?

/-- The Python 2 `str` method table.  `contains` is not among the methods
of `str`; attribute lookup of a missing method raises `AttributeError`. -/
def py_str_methods : List String :=
  ["capitalize", "center", "count", "decode", "encode", "endswith", "expandtabs",
   "find", "format", "index", "isalnum", "isalpha", "isdigit", "islower", "isspace",
   "istitle", "isupper", "join", "ljust", "lower", "lstrip", "partition", "replace",
   "rfind", "rindex", "rjust", "rpartition", "rsplit", "rstrip", "split",
   "splitlines", "startswith", "strip", "swapcase", "title", "translate", "upper",
   "zfill"]

/-- `find_group(etree, group_name)`: evaluates
`group_name.contains('/')`, which raises `AttributeError` because `str` has
no `contains` method; were that attribute present, the call
`find_group_by_name(gname)` would still raise `TypeError`, missing the
required `etree` argument. -/
def find_group (etree : Elem) (group_name : String) : Except PyErr Elem :=
  if py_str_methods.contains "contains" then Except.error PyErr.typeError
  else Except.error PyErr.attributeError

/-- Append `newChild` as last child of the element at index path `loc`,
rebuilding the tree: models lxml's in-place `parent.append(child)`. -/
def appendChildAt : Elem → List Nat → Elem → Elem
  | e, [], newChild => Elem.mk e.tag e.text e.attrs (e.children ++ [newChild])
  | e, i :: rest, newChild =>
    match e.children[i]? with
    | some c => Elem.mk e.tag e.text e.attrs (e.children.set i (appendChildAt c rest newChild))
    | none => e

/-- The `group_el` built by `create_group`: a `Group` element to which a
`UUID` child (the generated token) and a `Name` child are appended, in
that order. -/
def new_group_el (tok : String) (name : String) : Elem :=
  Elem.mk "Group" none []
    [Elem.mk "UUID" (some tok) [] [], Elem.mk "Name" (some name) [] []]

/-- `create_group(etree, group_path)`, made total with a recursion fuel:
splits off the last path segment, looks the parent up with
`find_group_by_path`, and if the parent is truthy (found and, per lxml's
legacy `__bool__`, non-childless) appends a new `Group` carrying a fresh
`UUID` and the segment `Name`, returning the mutated tree, the unconsumed
candidate stream and the created group; otherwise it recurses on the
parent path.  Fuel exhaustion (`none` result, tree unchanged) models the
source's unbounded self-recursion ending in `RecursionError`. -/
def create_group (addrOf : Nat → Nat) :
    Nat → List (List Nat) → Elem → String → Elem × List (List Nat) × Option Elem
  | 0, cands, doc, _ => (doc, cands, none)
  | fuel + 1, cands, doc, group_path =>
    match find_group_by_path doc (pathSplit group_path).1 with
    | some pg =>
      if pg.1.children.isEmpty then create_group addrOf fuel cands doc (pathSplit group_path).1
      else
        match generate_unique_uuid doc addrOf cands with
        | some tr =>
          (appendChildAt doc pg.2 (new_group_el tr.1 (pathSplit group_path).2), tr.2,
           some (new_group_el tr.1 (pathSplit group_path).2))
        | none => (doc, cands, none)
    | none => create_group addrOf fuel cands doc (pathSplit group_path).1

/-! ## Entry building blocks: times and password -/

/-- Python `str` of a boolean. -/
def pyBoolStr (b : Bool) : String := if b then "True" else "False"

/-- `get_time_element(expires, expiry_time)`.  The formatted current time
`datetime.strftime(datetime.now(), format=dformat)` is passed in as
`now_str`.  When `expiry_time` is provided (truthy), the source evaluates
`datetime.strftime(datetime.now, format=dformat)` — `strftime` applied to
the unbound `datetime.now` method — which raises `TypeError` before any
element is built.  Otherwise the expiry string is `now_str`, and the
`Times` element receives, in order, `CreationTime`, `LastModificationTime`,
`LastAccessTime`, `ExpiryTime`, `Expires`, `LocationChanged`; the
`UsageCount` element the source builds (`usage_count_el`, text `"0"`) is
never appended and therefore absent here. -/
def get_time_element (now_str : String) (expires : Bool) (expiry_time : Option String) :
    Except PyErr Elem :=
  match expiry_time with
  | some _ => Except.error PyErr.typeError
  | none =>
    Except.ok (Elem.mk "Times" none []
      [Elem.mk "CreationTime" (some now_str) [] [],
       Elem.mk "LastModificationTime" (some now_str) [] [],
       Elem.mk "LastAccessTime" (some now_str) [] [],
       Elem.mk "ExpiryTime" (some now_str) [] [],
       Elem.mk "Expires" (some (pyBoolStr expires)) [] [],
       Elem.mk "LocationChanged" (some now_str) [] []])

/-- `get_password_element(password)`: a `String` element holding a `Key`
child with text `Password` and a `Value` child with the password text and
the two hardcoded attributes `Protected="False"` and
`ProtectedValue="???"`, in that order. -/
def get_password_element (password : String) : Elem :=
  Elem.mk "String" none []
    [Elem.mk "Key" (some "Password") [] [],
     Elem.mk "Value" (some password) [("Protected", "False"), ("ProtectedValue", "???")] []]

/-- First child of `e` with tag `t`. -/
def firstChildWithTag (e : Elem) (t : String) : Option Elem :=
  (e.children.filter (fun c => c.tag == t)).head?

/-- Text of the first child of `e` with tag `t`. -/
def childText (e : Elem) (t : String) : Option String :=
  (firstChildWithTag e t).bind Elem.text

/-! ## The file-system effect of `write_entry` -/

/-- A file-system operation performed by the driver. -/
inductive FileOp where
  | openRead (path : String)
  | writeFile (path : String) (content : String)
  | rename (src : String) (dst : String)

/-- Is this operation a rename? -/
def FileOp.isRen : FileOp → Bool
  | .rename _ _ => true
  | _ => false

/-- A file system as an association list from path to content; the first
binding for a path wins. -/
def FS := List (String × String)

/-- Content stored at `p`. -/
def fsGet (fs : FS) (p : String) : Option String :=
  (List.find? (fun e => e.1 == p) fs).map (fun e => e.2)

/-- Apply one operation to the file system. -/
def applyOp (fs : FS) : FileOp → FS
  | .openRead _ => fs
  | .writeFile p c => (p, c) :: fs
  | .rename src dst =>
    match fsGet fs src with
    | some c => (dst, c) :: List.filter (fun e => !(e.1 == src)) fs
    | none => fs

/-- Apply a list of operations in order. -/
def applyOps (ops : List FileOp) (fs : FS) : FS :=
  ops.foldl applyOp fs

/-- The file operations `write_entry` performs: `libkeepass.open` reads the
database at `kdbx_file`, and after the in-memory mutation `kdb.write_to`
writes the re-serialized container (abstracted as the string `serialized`,
the external `Serialize` boundary) to the file `kdbx_file + 'new.kdbx'`
opened with mode `w+`.  No other path is touched and no rename occurs. -/
def write_entry_ops (kdbx_file : String) (serialized : String) : List FileOp :=
  [FileOp.openRead kdbx_file, FileOp.writeFile (kdbx_file ++ "new.kdbx") serialized]

/-! ## Concrete trees used as inputs -/

/-- A document whose root group has no subgroups: the root `Group` carries
only its own `UUID` (text decoding to sixteen zero bytes) and `Name`. -/
def emptyRootDoc : Elem :=
  Elem.mk "KeePassFile" none []
    [Elem.mk "Root" none []
      [Elem.mk "Group" none []
        [Elem.mk "UUID" (some "AAAAAAAAAAAAAAAAAAAAAA==") [] [],
         Elem.mk "Name" (some "Root") [] []]]]

/-- Sixteen zero bytes: a 16-byte identifier whose stored encoding is the
`UUID` text of `emptyRootDoc`. -/
def zeros16 : List Nat := List.replicate 16 0

/-! ## Claim theorems -/

/-- Claim C1 (code bug witnessed): `generate_unique_uuid` can return an
identifier that is already present in the tree under decoded-raw-bytes
comparison.  On a tree whose root group stores the `UUID` text
`AAAAAAAAAAAAAAAAAAAAAA==` (sixteen zero bytes) and a random stream whose
first value is those same sixteen zero bytes, the function returns that
very token: its in-use set holds `str(Element)` representations, never the
stored encodings nor their decoded bytes, so the collision is not seen. -/
theorem generate_unique_uuid_returns_present_id :
    generate_unique_uuid emptyRootDoc (fun _ => 0) [zeros16] =
      some ("AAAAAAAAAAAAAAAAAAAAAA==", []) ∧
    b64decodeStr "AAAAAAAAAAAAAAAAAAAAAA==" = some zeros16 ∧
    ((xpathAll "UUID" emptyRootDoc).map (fun e => b64decodeStr (e.text.getD ""))).contains
      (some zeros16) = true :=
  ⟨by decide, by decide, by decide⟩

/-- On `emptyRootDoc`, `create_group` on the empty path loops: the parent
lookup for `""` searches the root group for a subgroup named `""`, finds
none, and recurses on `os.path.split("")[0] = ""` again. -/
theorem create_group_loops_on_empty_path (addrOf : Nat → Nat) (cands : List (List Nat)) :
    ∀ fuel, create_group addrOf fuel cands emptyRootDoc "" = (emptyRootDoc, cands, none)
  | 0 => rfl
  | fuel + 1 => create_group_loops_on_empty_path addrOf cands fuel

/-- `create_group` on path `"A"` over `emptyRootDoc` falls into the
empty-path loop. -/
theorem create_group_loops_on_A (addrOf : Nat → Nat) (cands : List (List Nat)) :
    ∀ fuel, create_group addrOf fuel cands emptyRootDoc "A" = (emptyRootDoc, cands, none)
  | 0 => rfl
  | fuel + 1 => create_group_loops_on_empty_path addrOf cands fuel

/-- `create_group` on path `"A/B"` over `emptyRootDoc` falls into the
empty-path loop. -/
theorem create_group_loops_on_AB (addrOf : Nat → Nat) (cands : List (List Nat)) :
    ∀ fuel, create_group addrOf fuel cands emptyRootDoc "A/B" = (emptyRootDoc, cands, none)
  | 0 => rfl
  | fuel + 1 => create_group_loops_on_A addrOf cands fuel

/-- Claim C2 (code bug witnessed): resolving-and-creating `"A/B/C"` on a
tree whose root group has no subgroups creates nothing.  For every
recursion fuel, random stream and address assignment, `create_group`
returns with the tree unchanged, no group created and no folder returned:
the self-recursion on the parent path never finds a parent (the bottom
lookup searches for a subgroup named `""`) and corresponds to an infinite
recursion, i.e. `RecursionError`, in the source. -/
theorem create_group_empty_root_never_creates (addrOf : Nat → Nat) (cands : List (List Nat)) :
    ∀ fuel, create_group addrOf fuel cands emptyRootDoc "A/B/C" = (emptyRootDoc, cands, none)
  | 0 => rfl
  | fuel + 1 => create_group_loops_on_AB addrOf cands fuel

set_option maxRecDepth 4000 in
/-- Claim C3 (counterexample): the generator has no retry bound and no
exhaustion failure.  On a tree already holding the identifier with bytes
`zeros16` (stored as `AAAAAAAAAAAAAAAAAAAAAA==`) and a stream of 1001
candidates every one of which decodes to an identifier present in the tree
— so a bounded-retry generator with any budget up to 1000 would have to
fail with `IdentifierExhausted` — the code succeeds immediately, returning
the first colliding token. -/
theorem generate_unique_uuid_no_retry_bound_cex :
    (List.replicate 1001 zeros16).all
      (fun c => ((xpathAll "UUID" emptyRootDoc).map
        (fun e => b64decodeStr (e.text.getD ""))).contains (some c)) = true ∧
    generate_unique_uuid emptyRootDoc (fun _ => 0) (List.replicate 1001 zeros16) =
      some ("AAAAAAAAAAAAAAAAAAAAAA==", List.replicate 1000 zeros16) := by
  constructor
  · rw [List.all_eq_true]
    intro c hc
    rw [List.eq_of_mem_replicate hc]
    decide
  · rw [show (1001 : Nat) = 1000 + 1 from rfl, List.replicate_succ]
    decide

/-- Claim C3 (amended): `generate_unique_uuid` terminates on every input
with a nonempty candidate stream, but not through any retry bound: it
always returns the base64 token of the first candidate, because the `in
uuids` test compares that token against `str(Element)` representations and
never matches, so no retry and no `IdentifierExhausted` failure path ever
runs. -/
theorem generate_unique_uuid_first_candidate (etree : Elem) (addrOf : Nat → Nat)
    (c : List Nat) (rest : List (List Nat)) :
    generate_unique_uuid etree addrOf (c :: rest) = some (b64encodeStr c, rest) := by
  have h : b64encodeStr c ∉ uuid_strs etree addrOf := by
    intro hmem
    simp only [uuid_strs] at hmem
    rcases List.mem_map.1 hmem with ⟨p, _, he⟩
    exact b64encodeStr_ne_pyReprElem c p.2 (addrOf p.1) he.symm
  simp only [generate_unique_uuid, if_neg h]

/-- Claim C4: a failing `create_group` call leaves the tree unchanged.
The source appends a group only immediately before returning successfully,
so every failure path — the parent-lookup recursion bottoming out (fuel
exhaustion here, `RecursionError` in the source) or the generator never
returning (candidate exhaustion here) — returns the input tree intact,
with no partially attached chain. -/
theorem create_group_failure_leaves_tree_unchanged (addrOf : Nat → Nat) :
    ∀ (fuel : Nat) (cands : List (List Nat)) (doc : Elem) (group_path : String),
      (create_group addrOf fuel cands doc group_path).2.2 = none →
      (create_group addrOf fuel cands doc group_path).1 = doc
  | 0, _, _, _, _ => rfl
  | fuel + 1, cands, doc, p, h => by
    simp only [create_group] at h ⊢
    cases hf : find_group_by_path doc (pathSplit p).1 with
    | none =>
      simp only [hf] at h ⊢
      exact create_group_failure_leaves_tree_unchanged addrOf fuel cands doc (pathSplit p).1 h
    | some pg =>
      simp only [hf] at h ⊢
      by_cases hemp : pg.1.children.isEmpty = true
      · simp only [if_pos hemp] at h ⊢
        exact create_group_failure_leaves_tree_unchanged addrOf fuel cands doc (pathSplit p).1 h
      · simp only [if_neg hemp] at h ⊢
        cases hg : generate_unique_uuid doc addrOf cands with
        | some tr =>
          simp only [hg] at h
          exact absurd h (Option.some_ne_none _)
        | none =>
          simp only [hg]

/-- Witness for claim C4: a concrete failing call (`emptyRootDoc`, path
`"A/B/C"`, fuel 5, one candidate) really does leave the tree unchanged. -/
theorem create_group_failure_unchanged_witness :
    (create_group (fun _ => 0) 5 [zeros16] emptyRootDoc "A/B/C").1 = emptyRootDoc :=
  create_group_failure_leaves_tree_unchanged (fun _ => 0) 5 [zeros16] emptyRootDoc "A/B/C" rfl

/-- Claim C5: with `expires = True` and no explicit expiry,
`get_time_element` succeeds and the built `Times` block has its
`ExpiryTime` text equal to its `CreationTime` text. -/
theorem get_time_element_expiry_equals_created (now_str : String) :
    ∃ t, get_time_element now_str true none = Except.ok t ∧
      childText t "ExpiryTime" = childText t "CreationTime" :=
  ⟨_, rfl, rfl⟩

/-- Claim C6 (code bug witnessed): passing an explicit expiry raises
`TypeError` (the source formats the unbound `datetime.now` instead of the
supplied value), so the expiry never equals the explicit timestamp; and in
the successful no-expiry case the built `Times` block contains no
`UsageCount` child at all (the element is constructed but never appended),
so no `usageCount = 0` field is present. -/
theorem get_time_element_explicit_expiry_and_usage_count_bug :
    get_time_element "2017-01-01T00:00:00Z" true (some "2018-01-01T00:00:00Z") =
      Except.error PyErr.typeError ∧
    (get_time_element "2017-01-01T00:00:00Z" true none).toOption.map
      (fun t => (t.children.filter (fun c => c.tag == "UsageCount")).length) = some 0 :=
  ⟨rfl, rfl⟩

/-- Claim C7 (code bug witnessed): the password field built for the entry
`"secret"` carries two protection markers, `Protected="False"` and
`ProtectedValue="???"`, both hardcoded — `get_password_element` accepts no
protection argument from the caller. -/
theorem get_password_element_hardcoded_double_marker :
    (firstChildWithTag (get_password_element "secret") "Value").map Elem.attrs =
      some [("Protected", "False"), ("ProtectedValue", "???")] :=
  rfl

/-- Claim C8: the text encoding used for identifiers — `base64.b64encode`
of the 16 raw bytes, as written into the `UUID` text by
`generate_unique_uuid` — round-trips exactly: decoding the stored token
recovers the original 16 bytes. -/
theorem identifier_encoding_roundtrip (id16 : List Nat) (hlen : id16.length = 16)
    (hbytes : ∀ x ∈ id16, x < 256) :
    b64decodeStr (b64encodeStr id16) = some id16 :=
  b64_roundtrip id16 hbytes

/-- Witness for claim C8 at the 16-byte identifier from the source's own
comment (`klAHdnpC50mbES2Uk7agSg==`). -/
theorem identifier_encoding_roundtrip_witness :
    [146, 80, 7, 118, 122, 66, 231, 73, 155, 17, 45, 148, 147, 182, 160, 74].length = 16 ∧
    b64decodeStr (b64encodeStr
        [146, 80, 7, 118, 122, 66, 231, 73, 155, 17, 45, 148, 147, 182, 160, 74]) =
      some [146, 80, 7, 118, 122, 66, 231, 73, 155, 17, 45, 148, 147, 182, 160, 74] :=
  ⟨by decide,
   identifier_encoding_roundtrip _ (by decide) (by decide)⟩

/-- Claim C9 (counterexample): `write_entry` performs no rename, and after
a successful serialization the target file still holds its original
content rather than the new serialization: the output lands at
`kdbx_file + 'new.kdbx'` and stays there. -/
theorem write_entry_no_rename_cex :
    applyOps (write_entry_ops "db.kdbx" "NEW") [("db.kdbx", "ORIG")] =
      [("db.kdbxnew.kdbx", "NEW"), ("db.kdbx", "ORIG")] ∧
    (write_entry_ops "db.kdbx" "NEW").all (fun op => !op.isRen) = true ∧
    fsGet (applyOps (write_entry_ops "db.kdbx" "NEW") [("db.kdbx", "ORIG")]) "db.kdbx" =
      some "ORIG" :=
  ⟨rfl, rfl, rfl⟩

/-- Claim C9 (amended): `write_entry` never overwrites the original
container file — for every file system, database path and serialized
output, the content at the original path is untouched and the new
serialization is written to the separate path `kdbx_file + 'new.kdbx'` —
but no rename over the target ever happens, so the target never receives
the new content. -/
theorem write_entry_preserves_original_writes_new_path
    (kdbx_file serialized : String) (fs : FS) :
    fsGet (applyOps (write_entry_ops kdbx_file serialized) fs) kdbx_file = fsGet fs kdbx_file ∧
    fsGet (applyOps (write_entry_ops kdbx_file serialized) fs) (kdbx_file ++ "new.kdbx") =
      some serialized ∧
    (write_entry_ops kdbx_file serialized).all (fun op => !op.isRen) = true := by
  have hne : ((kdbx_file ++ "new.kdbx" : String) == kdbx_file) = false := by
    rw [beq_eq_false_iff_ne]
    intro h
    have hlen := congrArg String.length h
    rw [String.length_append] at hlen
    have h8 : ("new.kdbx" : String).length = 8 := by decide
    omega
  refine ⟨?_, ?_, rfl⟩
  · show fsGet ((kdbx_file ++ "new.kdbx", serialized) :: fs) kdbx_file = fsGet fs kdbx_file
    simp only [fsGet]
    rw [List.find?_cons_of_neg]
    simp [hne]
  · show fsGet ((kdbx_file ++ "new.kdbx", serialized) :: fs) (kdbx_file ++ "new.kdbx") =
      some serialized
    simp only [fsGet]
    rw [List.find?_cons_of_pos]
    · rfl
    · exact beq_self_eq_true _

/-- Claim C10: `find_group` raises on every tree and every string: the
attribute lookup `group_name.contains` fails with `AttributeError` since
`str` has no `contains` method, so the global-name-search strategy never
returns a folder. -/
theorem find_group_always_raises (etree : Elem) (group_name : String) :
    find_group etree group_name = Except.error PyErr.attributeError :=
  rfl
